import Mathlib

/-!
Shallow embedding of `src/simple-container.c`: a single-file container
launcher.  The parent (`main`, the Launcher) clones a child into fresh
UTS/PID/mount/network namespaces; the child (`child_func`, the Isolation
Bootstrap) privatizes mount propagation, sets a hostname, chroots, chdirs,
mounts proc, resets the environment and finally execs `/bin/sh`.

The OS is modelled by an oracle recording, for each fallible system call
made by the program, whether that call succeeds (C return value `0` /
non-negative) or fails (`-1`).  The observable effects tracked by the
embedding are the sequence of system calls attempted, the process outcome
(exit with a status, or image replacement with a path, argument vector and
environment), and a small system state (hostname, root, cwd, environment,
host-side and child-side mount tables, and the mount-propagation mode).

Mount propagation follows the behaviour the source relies on: mount
events performed while propagation is shared are also visible in the
host's mount table; after the tree is marked recursively private
(`MS_REC | MS_PRIVATE`), child mounts no longer appear on the host.
-/

namespace SimpleContainer

/-- Constant `STACK_SIZE` from line 10 of the source: `1024 * 1024`. -/
def STACK_SIZE : Nat := 1024 * 1024

/-- Linux clone-flag constant `CLONE_NEWNS` (mount namespace). -/
def CLONE_NEWNS : Nat := 0x00020000

/-- Linux clone-flag constant `CLONE_NEWCGROUP`. -/
def CLONE_NEWCGROUP : Nat := 0x02000000

/-- Linux clone-flag constant `CLONE_NEWUTS` (hostname/domain namespace). -/
def CLONE_NEWUTS : Nat := 0x04000000

/-- Linux clone-flag constant `CLONE_NEWIPC`. -/
def CLONE_NEWIPC : Nat := 0x08000000

/-- Linux clone-flag constant `CLONE_NEWUSER`. -/
def CLONE_NEWUSER : Nat := 0x10000000

/-- Linux clone-flag constant `CLONE_NEWPID` (process-id namespace). -/
def CLONE_NEWPID : Nat := 0x20000000

/-- Linux clone-flag constant `CLONE_NEWNET` (network namespace). -/
def CLONE_NEWNET : Nat := 0x40000000

/-- Linux signal number `SIGCHLD`; passed in the low byte of the clone
flags so the child is reapable with `waitpid`. -/
def SIGCHLD : Nat := 17

/-- Constant `EXIT_FAILURE` from the C standard library, the status used
by every `exit(EXIT_FAILURE)` in the source. -/
def EXIT_FAILURE : Nat := 1

/-- The clone flags computed on line 106 of the source:
`CLONE_NEWUTS | CLONE_NEWPID | CLONE_NEWNS | CLONE_NEWNET | SIGCHLD`. -/
def clone_flags : Nat :=
  CLONE_NEWUTS ||| CLONE_NEWPID ||| CLONE_NEWNS ||| CLONE_NEWNET ||| SIGCHLD

/-- The fallible system calls made by `child_func`, in source order
(`clearenv` cannot fail but is recorded as an event since it mutates the
environment). -/
inductive SysCall where
  | mountRootPrivate
  | sethostnameCall
  | chrootCall
  | chdirCall
  | mountProcCall
  | clearenvCall
  | setenvPATHCall
  | setenvHOMECall
  | setenvTERMCall
  | execvCall
deriving DecidableEq, Repr

/-- OS oracle for the child: for each call site in `child_func`, whether
the system call succeeds there. -/
structure OSOracle where
  mountPrivateOk : Bool
  sethostnameOk : Bool
  chrootOk : Bool
  chdirOk : Bool
  mountProcOk : Bool
  setenvPathOk : Bool
  setenvHomeOk : Bool
  setenvTermOk : Bool
  execvOk : Bool
deriving DecidableEq, Repr

/-- Whether the oracle makes a given call site succeed (`clearenv` is
`void` and always succeeds). -/
def callOk (o : OSOracle) : SysCall → Bool
  | .mountRootPrivate => o.mountPrivateOk
  | .sethostnameCall => o.sethostnameOk
  | .chrootCall => o.chrootOk
  | .chdirCall => o.chdirOk
  | .mountProcCall => o.mountProcOk
  | .clearenvCall => true
  | .setenvPATHCall => o.setenvPathOk
  | .setenvHOMECall => o.setenvHomeOk
  | .setenvTERMCall => o.setenvTermOk
  | .execvCall => o.execvOk

/-- System state visible to the embedding: process attributes, the
environment (an association list, as in POSIX `environ`), the host's and
the child namespace's mount tables (lists of host-side target paths and
child-side target paths respectively), and whether mount events still
propagate between the child's mount namespace and the host. -/
structure SysState where
  hostname : String
  root : String
  cwd : String
  env : List (String × String)
  hostMounts : List String
  childMounts : List String
  propagationShared : Bool
deriving DecidableEq, Repr

/-- POSIX `setenv(n, v, 1)` on an environment association list: overwrite
the binding of `n` if present, otherwise append it. -/
def setenv (env : List (String × String)) (n v : String) :
    List (String × String) :=
  if env.any (fun p => p.1 = n) then
    env.map (fun p => if p.1 = n then (n, v) else p)
  else env ++ [(n, v)]

/-- Effect of `mount(NULL, "/", NULL, MS_REC | MS_PRIVATE, NULL)`
(line 21): the mount tree becomes recursively private, so later mount
events in this namespace no longer propagate to the host. -/
def do_mount_private (s : SysState) : SysState :=
  { s with propagationShared := false }

/-- Effect of `sethostname("mycontainer", 11)` (line 28). -/
def do_sethostname (s : SysState) : SysState :=
  { s with hostname := "mycontainer" }

/-- Effect of `chroot("/tmp/mycontainer_root")` (line 36); `chroot` does
not change the working directory. -/
def do_chroot (s : SysState) : SysState :=
  { s with root := "/tmp/mycontainer_root" }

/-- Effect of `chdir("/")` (line 44). -/
def do_chdir (s : SysState) : SysState :=
  { s with cwd := "/" }

/-- Effect of `mount("proc", "/proc", "proc", 0, NULL)` (line 52): the
mount lands in the child's mount table; it additionally appears in the
host's table (at the host-side path of the mount point) exactly when
mount propagation towards the host is still shared. -/
def do_mount_proc (s : SysState) : SysState :=
  { s with
    childMounts := "/proc" :: s.childMounts,
    hostMounts :=
      if s.propagationShared then
        "/tmp/mycontainer_root/proc" :: s.hostMounts
      else s.hostMounts }

/-- Effect of `clearenv()` (line 60): the environment becomes empty. -/
def do_clearenv (s : SysState) : SysState :=
  { s with env := [] }

/-- Effect of a successful `setenv(n, v, 1)` call on the state. -/
def do_setenv (n v : String) (s : SysState) : SysState :=
  { s with env := setenv s.env n v }

/-- How a run of `child_func` ends: either the process exits with a
status (an explicit `exit(EXIT_FAILURE)`, or the `return 1` after a
failed `execv`, whose value becomes the clone child's exit status), or
`execv` succeeds and the process image is replaced by `path` running with
argument vector `args` and the current environment `env`. -/
inductive ChildOutcome where
  | exited (code : Nat)
  | replaced (path : String) (args : List String) (env : List (String × String))
deriving DecidableEq, Repr

/-- Returns `true` exactly on the `exited` outcome. -/
def isExited : ChildOutcome → Bool
  | .exited _ => true
  | .replaced _ _ _ => false

/-- A complete run of the Isolation Bootstrap: the system calls attempted
in order, the outcome, and the final system state. -/
structure ChildRun where
  calls : List SysCall
  outcome : ChildOutcome
  state : SysState
deriving DecidableEq, Repr

/-- The child entry point `child_func` (lines 14-94 of the source),
straight-line with an early `exit(EXIT_FAILURE)` at each failed call,
exactly as in the C: privatize mount propagation, set the hostname,
chroot, chdir, mount proc, clear the environment, set `PATH`, `HOME` and
`TERM`, then `execv("/bin/sh", {"/bin/sh", NULL})` passing the current
environment; a failed `execv` falls through to `return 1`. -/
def child_func (o : OSOracle) (s : SysState) : ChildRun :=
  if !o.mountPrivateOk then
    ⟨[.mountRootPrivate], .exited EXIT_FAILURE, s⟩
  else if !o.sethostnameOk then
    ⟨[.mountRootPrivate, .sethostnameCall], .exited EXIT_FAILURE,
      do_mount_private s⟩
  else if !o.chrootOk then
    ⟨[.mountRootPrivate, .sethostnameCall, .chrootCall],
      .exited EXIT_FAILURE, do_sethostname (do_mount_private s)⟩
  else if !o.chdirOk then
    ⟨[.mountRootPrivate, .sethostnameCall, .chrootCall, .chdirCall],
      .exited EXIT_FAILURE, do_chroot (do_sethostname (do_mount_private s))⟩
  else if !o.mountProcOk then
    ⟨[.mountRootPrivate, .sethostnameCall, .chrootCall, .chdirCall,
      .mountProcCall], .exited EXIT_FAILURE,
      do_chdir (do_chroot (do_sethostname (do_mount_private s)))⟩
  else if !o.setenvPathOk then
    ⟨[.mountRootPrivate, .sethostnameCall, .chrootCall, .chdirCall,
      .mountProcCall, .clearenvCall, .setenvPATHCall],
      .exited EXIT_FAILURE,
      do_clearenv (do_mount_proc
        (do_chdir (do_chroot (do_sethostname (do_mount_private s)))))⟩
  else if !o.setenvHomeOk then
    ⟨[.mountRootPrivate, .sethostnameCall, .chrootCall, .chdirCall,
      .mountProcCall, .clearenvCall, .setenvPATHCall, .setenvHOMECall],
      .exited EXIT_FAILURE,
      do_setenv "PATH" "/bin:/usr/bin" (do_clearenv (do_mount_proc
        (do_chdir (do_chroot (do_sethostname (do_mount_private s))))))⟩
  else if !o.setenvTermOk then
    ⟨[.mountRootPrivate, .sethostnameCall, .chrootCall, .chdirCall,
      .mountProcCall, .clearenvCall, .setenvPATHCall, .setenvHOMECall,
      .setenvTERMCall], .exited EXIT_FAILURE,
      do_setenv "HOME" "/" (do_setenv "PATH" "/bin:/usr/bin"
        (do_clearenv (do_mount_proc
          (do_chdir (do_chroot (do_sethostname (do_mount_private s)))))))⟩
  else if !o.execvOk then
    ⟨[.mountRootPrivate, .sethostnameCall, .chrootCall, .chdirCall,
      .mountProcCall, .clearenvCall, .setenvPATHCall, .setenvHOMECall,
      .setenvTERMCall, .execvCall], .exited 1,
      do_setenv "TERM" "xterm" (do_setenv "HOME" "/"
        (do_setenv "PATH" "/bin:/usr/bin" (do_clearenv (do_mount_proc
          (do_chdir (do_chroot (do_sethostname (do_mount_private s))))))))⟩
  else
    ⟨[.mountRootPrivate, .sethostnameCall, .chrootCall, .chdirCall,
      .mountProcCall, .clearenvCall, .setenvPATHCall, .setenvHOMECall,
      .setenvTERMCall, .execvCall],
      .replaced "/bin/sh" ["/bin/sh"]
        (do_setenv "TERM" "xterm" (do_setenv "HOME" "/"
          (do_setenv "PATH" "/bin:/usr/bin" (do_clearenv (do_mount_proc
            (do_chdir (do_chroot (do_sethostname
              (do_mount_private s))))))))).env,
      do_setenv "TERM" "xterm" (do_setenv "HOME" "/"
        (do_setenv "PATH" "/bin:/usr/bin" (do_clearenv (do_mount_proc
          (do_chdir (do_chroot (do_sethostname (do_mount_private s))))))))⟩

/-- The full call sequence of a run of `child_func` in which every call
succeeds, in source order. -/
def fullCallSeq : List SysCall :=
  [.mountRootPrivate, .sethostnameCall, .chrootCall, .chdirCall,
   .mountProcCall, .clearenvCall, .setenvPATHCall, .setenvHOMECall,
   .setenvTERMCall, .execvCall]

/-- The environment handed to the workload by an outcome, when the
outcome is an image replacement. -/
def handedEnv : ChildOutcome → Option (List (String × String))
  | .replaced _ _ e => some e
  | .exited _ => none

/-- The three-variable environment the source builds after `clearenv`:
`PATH=/bin:/usr/bin`, `HOME=/`, `TERM=xterm` (lines 66-77). -/
def threeEnv : List (String × String) :=
  [("PATH", "/bin:/usr/bin"), ("HOME", "/"), ("TERM", "xterm")]

/-- Entry points the Launcher can pass to `clone`; the source passes
`child_func` (line 111). -/
inductive EntryPoint where
  | childFunc
deriving DecidableEq, Repr

/-- The argument bundle of the `clone` call on line 111: entry point,
stack top (`child_stack + STACK_SIZE`, stacks grow downwards), and
flags. -/
structure CloneCall where
  entry : EntryPoint
  stackTop : Nat
  flags : Nat
deriving DecidableEq, Repr

/-- The `clone` call `main` makes, as a function of the address of the
global `child_stack` buffer. -/
def cloneCall (childStackBase : Nat) : CloneCall :=
  ⟨.childFunc, childStackBase + STACK_SIZE, clone_flags⟩

/-- OS oracle for the Launcher: the result of `clone` (`some pid` on
success, `none` for `-1`), whether `waitpid` succeeds, the child's wait
status (which the source discards by passing `NULL`), and whether each of
the two `umount2(..., MNT_DETACH)` calls succeeds. -/
structure LauncherOracle where
  cloneResult : Option Nat
  waitpidOk : Bool
  waitStatus : Nat
  umountProcOk : Bool
  umountRootOk : Bool
deriving DecidableEq, Repr

/-- Observable steps of the Launcher. -/
inductive LStep where
  | spawn
  | waitFor (pid : Nat)
  | umountProcDetach
  | umountRootDetach
  | cleanupWarn
deriving DecidableEq, Repr

/-- The cleanup on line 138 of the source:
`if (umount2("/tmp/mycontainer_root/proc", MNT_DETACH) != 0 &&
umount2("/tmp/mycontainer_root", MNT_DETACH) != 0) perror(...)`.
C `&&` short-circuits, so the second detached unmount is attempted only
when the first fails, and the warning is printed only when both fail. -/
def cleanupMounts (umountProcOk umountRootOk : Bool) : List LStep :=
  if umountProcOk then [.umountProcDetach]
  else if umountRootOk then [.umountProcDetach, .umountRootDetach]
  else [.umountProcDetach, .umountRootDetach, .cleanupWarn]

/-- The Launcher `main` (lines 96-147): clone, and on failure
`exit(EXIT_FAILURE)`; then `waitpid(pid, NULL, 0)`, and on failure
`exit(EXIT_FAILURE)`; then the best-effort cleanup, then `return 0`.
Returns the steps performed and the process exit status. -/
def main (lo : LauncherOracle) : List LStep × Nat :=
  match lo.cloneResult with
  | none => ([.spawn], EXIT_FAILURE)
  | some pid =>
    if !lo.waitpidOk then ([.spawn, .waitFor pid], EXIT_FAILURE)
    else
      ([.spawn, .waitFor pid] ++
        cleanupMounts lo.umountProcOk lo.umountRootOk, 0)

/-- Oracle in which every system call succeeds. -/
def oAllOk : OSOracle :=
  ⟨true, true, true, true, true, true, true, true, true⟩

/-- Oracle in which only the mount-privatize call (step 1) fails. -/
def oFailMountPrivate : OSOracle := { oAllOk with mountPrivateOk := false }

/-- Oracle in which only the `sethostname` call (step 2) fails. -/
def oFailHostname : OSOracle := { oAllOk with sethostnameOk := false }

/-- Oracle in which only the `chroot` call (step 3) fails. -/
def oFailChroot : OSOracle := { oAllOk with chrootOk := false }

/-- A host-side initial state: shared mount propagation, hostname
`host`, empty environment and mount tables. -/
def sInit : SysState :=
  ⟨"host", "/", "/", [], [], [], true⟩

/-- A host-side initial state whose environment holds a `PATH` and a
host-only secret, as set before launch. -/
def sHostEnv : SysState :=
  { sInit with env := [("PATH", "/bin:/usr/bin"), ("SECRET_TOKEN", "hunter2")] }

/-- Launcher oracle for a fully successful run (child pid 42). -/
def loSuccess : LauncherOracle := ⟨some 42, true, 0, true, true⟩

/-- Launcher oracle in which `clone` fails. -/
def loSpawnFail : LauncherOracle := ⟨none, true, 0, true, true⟩

/-- Launcher oracle in which `clone` succeeds (pid 7) and `waitpid`
fails. -/
def loWaitFail : LauncherOracle := ⟨some 7, false, 0, true, true⟩

/-- Launcher oracle in which both detached unmounts fail. -/
def loBothUmountFail : LauncherOracle := ⟨some 42, true, 0, false, false⟩

/-- Claim C1: the Isolation Bootstrap executes its setup calls in the
strict source order (every run's call list is a prefix of the full
sequence), every call before the last one succeeded, on any call's
failure it terminates immediately with that call as its last action and
no later call executed, and when no call fails it performs the whole
sequence and replaces the process image with the workload. -/
theorem bootstrap_strict_sequence (o : OSOracle) (s : SysState) :
    (child_func o s).calls = fullCallSeq.take (child_func o s).calls.length ∧
    (∀ c ∈ (child_func o s).calls.dropLast, callOk o c = true) ∧
    (isExited (child_func o s).outcome = true →
      ∃ c, (child_func o s).calls.getLast? = some c ∧ callOk o c = false) ∧
    (isExited (child_func o s).outcome = false →
      (child_func o s).calls = fullCallSeq ∧
      (child_func o s).outcome =
        ChildOutcome.replaced "/bin/sh" ["/bin/sh"] threeEnv) := by
  obtain ⟨b1, b2, b3, b4, b5, b6, b7, b8, b9⟩ := o
  cases b1
  · simp [child_func, callOk, fullCallSeq, isExited]
  cases b2
  · simp [child_func, callOk, fullCallSeq, isExited]
  cases b3
  · simp [child_func, callOk, fullCallSeq, isExited]
  cases b4
  · simp [child_func, callOk, fullCallSeq, isExited]
  cases b5
  · simp [child_func, callOk, fullCallSeq, isExited]
  cases b6
  · simp [child_func, callOk, fullCallSeq, isExited]
  cases b7
  · simp [child_func, callOk, fullCallSeq, isExited]
  cases b8
  · simp [child_func, callOk, fullCallSeq, isExited]
  cases b9
  · simp [child_func, callOk, fullCallSeq, isExited]
  · simp [child_func, callOk, fullCallSeq, isExited, threeEnv,
      do_setenv, do_clearenv, do_mount_proc, do_chdir, do_chroot,
      do_sethostname, do_mount_private, setenv]

/-- Concrete run for `bootstrap_strict_sequence`: with only the `chroot`
call failing, the run exits and its last attempted call is the failing
one. -/
theorem bootstrap_strict_sequence_witness :
    ∃ c, (child_func oFailChroot sInit).calls.getLast? = some c ∧
      callOk oFailChroot c = false :=
  (bootstrap_strict_sequence oFailChroot sInit).2.2.1 (by decide)

/-- Claim C2 counterexample: two different failing setup steps — the
mount-privatize call and the `sethostname` call — both make the
bootstrap process exit with the same status `1`, so the exit status is
not distinct per failing setup step and a caller cannot branch on the
cause. -/
theorem setup_exit_codes_not_distinct :
    (child_func oFailMountPrivate sInit).outcome = ChildOutcome.exited 1 ∧
    (child_func oFailHostname sInit).outcome = ChildOutcome.exited 1 ∧
    (child_func oFailMountPrivate sInit).calls.getLast? ≠
      (child_func oFailHostname sInit).calls.getLast? := by
  decide

/-- Claim C2 (amended): every failing setup step makes the bootstrap
process exit with the non-zero status `1` (`EXIT_FAILURE`, and the
`return 1` after a failed `execv`), and a Launcher spawn or wait failure
also exits with status `1`; the status is the same non-zero value for
every cause rather than distinct per failing setup step. -/
theorem setup_exit_nonzero (o : OSOracle) (s : SysState) (n : Nat)
    (lo : LauncherOracle) :
    ((child_func o s).outcome = ChildOutcome.exited n → n = 1 ∧ n ≠ 0) ∧
    (lo.cloneResult = none → (main lo).2 = 1) ∧
    (∀ pid, lo.cloneResult = some pid → lo.waitpidOk = false →
      (main lo).2 = 1) := by
  refine ⟨?_, ?_, ?_⟩
  · intro h
    obtain ⟨b1, b2, b3, b4, b5, b6, b7, b8, b9⟩ := o
    cases b1
    · simp [child_func, EXIT_FAILURE] at h; omega
    cases b2
    · simp [child_func, EXIT_FAILURE] at h; omega
    cases b3
    · simp [child_func, EXIT_FAILURE] at h; omega
    cases b4
    · simp [child_func, EXIT_FAILURE] at h; omega
    cases b5
    · simp [child_func, EXIT_FAILURE] at h; omega
    cases b6
    · simp [child_func, EXIT_FAILURE] at h; omega
    cases b7
    · simp [child_func, EXIT_FAILURE] at h; omega
    cases b8
    · simp [child_func, EXIT_FAILURE] at h; omega
    cases b9
    · simp [child_func, EXIT_FAILURE] at h; omega
    · simp [child_func] at h
  · intro h
    obtain ⟨cr, w, st, up, ur⟩ := lo
    simp only at h
    subst h
    simp [main, EXIT_FAILURE]
  · intro pid hc hw
    obtain ⟨cr, w, st, up, ur⟩ := lo
    simp only at hc hw
    subst hc; subst hw
    simp [main, EXIT_FAILURE]

/-- Concrete run for `setup_exit_nonzero`: the bootstrap exits `1` when
its first call fails, and the Launcher exits `1` on a `clone` failure
and on a `waitpid` failure. -/
theorem setup_exit_nonzero_witness :
    ((1 : Nat) = 1 ∧ (1 : Nat) ≠ 0) ∧
    (main loSpawnFail).2 = 1 ∧ (main loWaitFail).2 = 1 :=
  ⟨(setup_exit_nonzero oFailMountPrivate sInit 1 loSpawnFail).1 (by decide),
   (setup_exit_nonzero oAllOk sInit 1 loSpawnFail).2.1 rfl,
   (setup_exit_nonzero oAllOk sInit 1 loWaitFail).2.2 7 rfl rfl⟩

/-- Claim C3 counterexample: with every call succeeding and a host
environment that sets `PATH` before launch, the environment handed to
the workload does contain that host variable — same name, and here even
the same binding — so it is false that every host environment variable
set before launch is absent from the workload environment. -/
theorem host_variable_present_in_workload_env :
    ("PATH", "/bin:/usr/bin") ∈ sHostEnv.env ∧
    handedEnv (child_func oAllOk sHostEnv).outcome = some threeEnv ∧
    ("PATH", "/bin:/usr/bin") ∈ threeEnv ∧
    "PATH" ∈ threeEnv.map Prod.fst := by
  decide

/-- Claim C3 (amended): whenever the bootstrap reaches the workload
handoff, the environment passed to the workload is exactly the three
variables `PATH`, `HOME`, `TERM` with their fixed literal values,
independent of the host environment; every host variable whose name is
not one of those three allowlisted names is absent from it, and the
three allowlisted names carry the fixed literals, never host values. -/
theorem workload_env_exactly_three (o : OSOracle) (s : SysState)
    (e : List (String × String))
    (h : handedEnv (child_func o s).outcome = some e) :
    e = threeEnv ∧
    ∀ n v, (n, v) ∈ s.env → n ≠ "PATH" → n ≠ "HOME" → n ≠ "TERM" →
      n ∉ e.map Prod.fst := by
  obtain ⟨b1, b2, b3, b4, b5, b6, b7, b8, b9⟩ := o
  cases b1
  · simp [child_func, handedEnv] at h
  cases b2
  · simp [child_func, handedEnv] at h
  cases b3
  · simp [child_func, handedEnv] at h
  cases b4
  · simp [child_func, handedEnv] at h
  cases b5
  · simp [child_func, handedEnv] at h
  cases b6
  · simp [child_func, handedEnv] at h
  cases b7
  · simp [child_func, handedEnv] at h
  cases b8
  · simp [child_func, handedEnv] at h
  cases b9
  · simp [child_func, handedEnv] at h
  · simp [child_func, handedEnv, do_setenv, do_clearenv, do_mount_proc,
      do_chdir, do_chroot, do_sethostname, do_mount_private, setenv] at h
    subst h
    constructor
    · simp [threeEnv, setenv]
    · intro n v _ h1 h2 h3
      simp [threeEnv, setenv]
      exact ⟨h1, h2, h3⟩

/-- Concrete run for `workload_env_exactly_three`: the host-only
variable `SECRET_TOKEN`, set before launch, is not among the names of
the environment handed to the workload. -/
theorem workload_env_exactly_three_witness :
    "SECRET_TOKEN" ∉ threeEnv.map Prod.fst :=
  (workload_env_exactly_three oAllOk sHostEnv threeEnv (by decide)).2
    "SECRET_TOKEN" "hunter2" (by decide) (by decide) (by decide) (by decide)

/-- Claim C4 counterexample: when `clone` fails, and likewise when
`waitpid` fails, the Launcher exits immediately and the best-effort
unmount cleanup is never attempted — cleanup does not always run. -/
theorem cleanup_skipped_on_failure :
    LStep.umountProcDetach ∉ (main loSpawnFail).1 ∧
    LStep.umountProcDetach ∉ (main loWaitFail).1 := by
  decide

/-- Claim C4 (amended): the best-effort unmount cleanup runs only on the
success path — it is attempted if and only if both the spawn and the
wait succeed, and in that case it forms the final steps of the run; on a
spawn or wait failure the Launcher terminates at once and the cleanup is
skipped along with the other remaining steps. -/
theorem cleanup_only_after_successful_wait (lo : LauncherOracle) :
    (LStep.umountProcDetach ∈ (main lo).1 ↔
      lo.waitpidOk = true ∧ ∃ pid, lo.cloneResult = some pid) ∧
    (∀ pid, lo.cloneResult = some pid → lo.waitpidOk = true →
      (main lo).1 = [LStep.spawn, LStep.waitFor pid] ++
        cleanupMounts lo.umountProcOk lo.umountRootOk) := by
  obtain ⟨cr, w, st, up, ur⟩ := lo
  cases cr
  · cases w <;> simp [main, cleanupMounts]
  · cases w
    · simp [main]
    · cases up <;> cases ur <;> simp [main, cleanupMounts]

/-- Concrete run for `cleanup_only_after_successful_wait`: on a fully
successful run the trace is spawn, wait, then the cleanup steps. -/
theorem cleanup_only_after_successful_wait_witness :
    (main loSuccess).1 = [LStep.spawn, LStep.waitFor 42] ++
      cleanupMounts loSuccess.umountProcOk loSuccess.umountRootOk :=
  (cleanup_only_after_successful_wait loSuccess).2 42 rfl rfl

/-- Claim C5: the spawn call starts the child at the `child_func` entry
point on the top of the supplied stack (`child_stack + STACK_SIZE`),
requests new instances of exactly the UTS, PID, mount and network
namespaces (and no IPC, user or cgroup namespace), carries `SIGCHLD` in
the low byte of its flags so the child is reapable by a standard wait,
and on success the Launcher obtains the child's process identifier and
waits on exactly that identifier. -/
theorem spawn_call_namespaces_and_pid (base pid : Nat)
    (lo : LauncherOracle) (h : lo.cloneResult = some pid) :
    (cloneCall base).entry = EntryPoint.childFunc ∧
    (cloneCall base).stackTop = base + STACK_SIZE ∧
    (cloneCall base).flags &&& CLONE_NEWUTS ≠ 0 ∧
    (cloneCall base).flags &&& CLONE_NEWPID ≠ 0 ∧
    (cloneCall base).flags &&& CLONE_NEWNS ≠ 0 ∧
    (cloneCall base).flags &&& CLONE_NEWNET ≠ 0 ∧
    (cloneCall base).flags &&& CLONE_NEWIPC = 0 ∧
    (cloneCall base).flags &&& CLONE_NEWUSER = 0 ∧
    (cloneCall base).flags &&& CLONE_NEWCGROUP = 0 ∧
    (cloneCall base).flags % 256 = SIGCHLD ∧
    LStep.waitFor pid ∈ (main lo).1 := by
  obtain ⟨cr, w, st, up, ur⟩ := lo
  simp only at h
  subst h
  refine ⟨rfl, rfl, ?_, ?_, ?_, ?_, ?_, ?_, ?_, ?_, ?_⟩
  · show clone_flags &&& CLONE_NEWUTS ≠ 0; decide
  · show clone_flags &&& CLONE_NEWPID ≠ 0; decide
  · show clone_flags &&& CLONE_NEWNS ≠ 0; decide
  · show clone_flags &&& CLONE_NEWNET ≠ 0; decide
  · show clone_flags &&& CLONE_NEWIPC = 0; decide
  · show clone_flags &&& CLONE_NEWUSER = 0; decide
  · show clone_flags &&& CLONE_NEWCGROUP = 0; decide
  · show clone_flags % 256 = SIGCHLD; decide
  · cases w <;> simp [main, cleanupMounts]

/-- Concrete run for `spawn_call_namespaces_and_pid`: on a run whose
`clone` yields pid 42, the Launcher waits on pid 42. -/
theorem spawn_call_namespaces_and_pid_witness :
    LStep.waitFor 42 ∈ (main loSuccess).1 :=
  (spawn_call_namespaces_and_pid 0 42 loSuccess rfl).2.2.2.2.2.2.2.2.2.2

/-- Claim C6: on the success path the cleanup first attempts the
detached unmount of the proc filesystem under the container root,
attempts the detached unmount of the root path itself only when that
first attempt fails, reports a warning only when the cleanup as a whole
fails, and the Launcher exits `0` whatever the unmount outcomes —
cleanup failure is never escalated into the exit code. -/
theorem cleanup_best_effort_order (lo : LauncherOracle) (pid : Nat)
    (hc : lo.cloneResult = some pid) (hw : lo.waitpidOk = true) :
    (main lo).2 = 0 ∧
    (cleanupMounts lo.umountProcOk lo.umountRootOk).head? =
      some LStep.umountProcDetach ∧
    (LStep.umountRootDetach ∈ cleanupMounts lo.umountProcOk lo.umountRootOk
      ↔ lo.umountProcOk = false) ∧
    (LStep.cleanupWarn ∈ cleanupMounts lo.umountProcOk lo.umountRootOk
      ↔ lo.umountProcOk = false ∧ lo.umountRootOk = false) := by
  obtain ⟨cr, w, st, up, ur⟩ := lo
  simp only at hc hw
  subst hc; subst hw
  cases up <;> cases ur <;> simp [main, cleanupMounts]

/-- Concrete run for `cleanup_best_effort_order`: even when both
detached unmounts fail, the Launcher still exits `0`. -/
theorem cleanup_best_effort_order_witness :
    (main loBothUmountFail).2 = 0 :=
  (cleanup_best_effort_order loBothUmountFail 42 rfl rfl).1

/-- Claim C7: a spawn failure and a wait failure are each fatal to the
Launcher — it stops at the failing step and exits with the non-zero
status `EXIT_FAILURE`, performing no further steps at all, so in
particular no isolation-less fallback execution of the workload. -/
theorem spawn_wait_failures_fatal (lo : LauncherOracle) :
    (lo.cloneResult = none →
      main lo = ([LStep.spawn], EXIT_FAILURE) ∧ (main lo).2 ≠ 0) ∧
    (∀ pid, lo.cloneResult = some pid → lo.waitpidOk = false →
      main lo = ([LStep.spawn, LStep.waitFor pid], EXIT_FAILURE) ∧
      (main lo).2 ≠ 0) := by
  obtain ⟨cr, w, st, up, ur⟩ := lo
  constructor
  · intro h
    simp only at h
    subst h
    simp [main, EXIT_FAILURE]
  · intro pid hc hw
    simp only at hc hw
    subst hc; subst hw
    simp [main, EXIT_FAILURE]

/-- Concrete runs for `spawn_wait_failures_fatal`: the `clone`-failure
run and the `waitpid`-failure run, each ending with status `1`. -/
theorem spawn_wait_failures_fatal_witness :
    (main loSpawnFail = ([LStep.spawn], EXIT_FAILURE) ∧
      (main loSpawnFail).2 ≠ 0) ∧
    (main loWaitFail = ([LStep.spawn, LStep.waitFor 7], EXIT_FAILURE) ∧
      (main loWaitFail).2 ≠ 0) :=
  ⟨(spawn_wait_failures_fatal loSpawnFail).1 rfl,
   (spawn_wait_failures_fatal loWaitFail).2 7 rfl rfl⟩

/-- Claim C8: on a full successful supervision cycle (spawn and wait
both succeed) the Launcher exits with code `0`, and the child's wait
status is never consumed: the entire run is unchanged under any wait
status, so the workload's own exit status is not propagated. -/
theorem success_exit_zero_ignores_status (lo : LauncherOracle)
    (pid : Nat) (hc : lo.cloneResult = some pid)
    (hw : lo.waitpidOk = true) :
    (main lo).2 = 0 ∧
    ∀ st, main { lo with waitStatus := st } = main lo := by
  obtain ⟨cr, w, wst, up, ur⟩ := lo
  simp only at hc hw
  subst hc; subst hw
  exact ⟨rfl, fun st => rfl⟩

/-- Concrete run for `success_exit_zero_ignores_status`: the successful
run exits `0` and is unchanged when the child's wait status is 99. -/
theorem success_exit_zero_ignores_status_witness :
    (main loSuccess).2 = 0 ∧
    main { loSuccess with waitStatus := 99 } = main loSuccess :=
  ⟨(success_exit_zero_ignores_status loSuccess 42 rfl rfl).1,
   (success_exit_zero_ignores_status loSuccess 42 rfl rfl).2 99⟩

/-- Claim C9: no run of the Isolation Bootstrap changes the host's mount
table — in particular the proc mount created inside the isolated process
never appears in it — because the very first call of every run
recursively privatizes mount propagation, the proc mount is attempted
only after that call succeeded, and when it succeeds it lands in the
child namespace's own mount table. -/
theorem child_mount_invisible_on_host (o : OSOracle) (s : SysState) :
    (child_func o s).state.hostMounts = s.hostMounts ∧
    (child_func o s).calls.head? = some SysCall.mountRootPrivate ∧
    (SysCall.mountProcCall ∈ (child_func o s).calls →
      o.mountPrivateOk = true) ∧
    (SysCall.mountProcCall ∈ (child_func o s).calls →
      o.mountProcOk = true →
      "/proc" ∈ (child_func o s).state.childMounts) := by
  obtain ⟨b1, b2, b3, b4, b5, b6, b7, b8, b9⟩ := o
  cases b1
  · simp [child_func, do_mount_private]
  cases b2
  · simp [child_func, do_mount_private, do_sethostname]
  cases b3
  · simp [child_func, do_mount_private, do_sethostname, do_chroot]
  cases b4
  · simp [child_func, do_mount_private, do_sethostname, do_chroot,
      do_chdir]
  cases b5
  · simp [child_func, do_mount_private, do_sethostname, do_chroot,
      do_chdir, do_mount_proc]
  cases b6
  · simp [child_func, do_mount_private, do_sethostname, do_chroot,
      do_chdir, do_mount_proc, do_clearenv, do_setenv]
  cases b7
  · simp [child_func, do_mount_private, do_sethostname, do_chroot,
      do_chdir, do_mount_proc, do_clearenv, do_setenv]
  cases b8
  · simp [child_func, do_mount_private, do_sethostname, do_chroot,
      do_chdir, do_mount_proc, do_clearenv, do_setenv]
  cases b9
  · simp [child_func, do_mount_private, do_sethostname, do_chroot,
      do_chdir, do_mount_proc, do_clearenv, do_setenv]
  · simp [child_func, do_mount_private, do_sethostname, do_chroot,
      do_chdir, do_mount_proc, do_clearenv, do_setenv, setenv]

/-- Concrete run for `child_mount_invisible_on_host`: starting from a
host state with shared propagation and every call succeeding, the proc
mount is in the child namespace's table while the host table is
unchanged. -/
theorem child_mount_invisible_on_host_witness :
    (child_func oAllOk sInit).state.hostMounts = sInit.hostMounts ∧
    "/proc" ∈ (child_func oAllOk sInit).state.childMounts :=
  ⟨(child_mount_invisible_on_host oAllOk sInit).1,
   (child_mount_invisible_on_host oAllOk sInit).2.2.2 (by decide) rfl⟩

/-- Claim C10: during cleanup the detached unmount of the root path is
attempted exactly when the detached unmount of the proc filesystem
fails, the warning is emitted exactly when both attempts fail, and when
the first attempt fails but the second succeeds no warning is reported
at all. -/
theorem cleanup_warning_iff_both_fail (up ur : Bool) :
    (LStep.umountRootDetach ∈ cleanupMounts up ur ↔ up = false) ∧
    (LStep.cleanupWarn ∈ cleanupMounts up ur ↔
      up = false ∧ ur = false) ∧
    (up = false → ur = true → LStep.cleanupWarn ∉ cleanupMounts up ur) := by
  cases up <;> cases ur <;> simp [cleanupMounts]

/-- Concrete run for `cleanup_warning_iff_both_fail`: first unmount
fails, second succeeds, and no warning is reported. -/
theorem cleanup_warning_iff_both_fail_witness :
    LStep.cleanupWarn ∉ cleanupMounts false true :=
  (cleanup_warning_iff_both_fail false true).2.2 rfl rfl

end SimpleContainer
